import Mathlib

/-!
Shallow embedding of the Director repository's hook-template agent
(src/backend/director/agents/hook_template.py) and of the Spielberg
base-agent safe-call wrapper (src/backend/spielberg/agents/base.py).

External collaborators (the VideoDB tool, the LLM client, json.loads)
are modelled as an environment of oracle results: each external call
either returns a value or raises, which we represent with
`Except String`.  Python exceptions are `Except.error` carrying the
textual description of the exception.  The session / output-message
sink is modelled as an event log.
-/

namespace HookTemplate

/-- Modelled from the spec: the director agents base module
(director/agents/base.py) is not among the sources; the spec (section 3)
gives the AgentResponse status as the enumeration SUCCESS, ERROR. -/
inductive AgentStatus where
  | SUCCESS
  | ERROR
deriving DecidableEq

/-- Modelled from the spec: the director agents base module is not among
the sources; the spec (section 3) gives AgentResponse as a result envelope
with fields status, message and a data mapping from string keys, with the
data mapping empty when not supplied at construction. -/
structure AgentResponse where
  status : AgentStatus
  message : String
  data : List (String × String) := []
deriving DecidableEq

/-- Modelled from the spec: the director core session module is not among
the sources; the spec (section 6) gives the content-object status enum as
progress, success, error. -/
inductive MsgStatus where
  | progress
  | success
  | error
deriving DecidableEq

/-- Modelled from the spec: the director core session module is not among
the sources; the spec (section 6) gives the content object as carrying
mutable text, status and status_message fields; the text field starts
empty when not supplied at construction. -/
structure TextContent where
  agent_name : String
  status : MsgStatus
  status_message : String
  text : String := ""
deriving DecidableEq

/-- Events sent to the session / output-message sink: an appended action
line, a push_update flush, or a publish of the content object (the
snapshot of the content at the moment of publishing). -/
inductive SinkEvent where
  | action (s : String)
  | pushUpdate
  | publish (tc : TextContent)
deriving DecidableEq

/-- A scene record as returned by get_scene_index: the code reads only the
description field of each scene. -/
structure Scene where
  description : String
deriving DecidableEq

/-- An entry of the list returned by list_scene_index: the code reads only
the scene_index_id field. -/
structure SceneIndexEntry where
  scene_index_id : String
deriving DecidableEq

/-- The LLM chat-completions reply: a status flag and a content string. -/
structure LLMResponse where
  status : Bool
  content : String
deriving DecidableEq

/-- A field of the JSON object parsed from the LLM reply: a string, or a
list of strings (the shape the code expects for the visuals field). -/
inductive JField where
  | s (v : String)
  | l (vs : List String)
deriving DecidableEq

/-- The JSON object parsed from the LLM reply, as an association list of
field names to field values (a model of a Python dict, assumed free of
duplicate keys as json.loads keeps one binding per key). -/
abbrev JsonObj := List (String × JField)

/-- Oracle environment: one entry per external call site of run.  The two
get_transcript call sites are distinguished because spoken-word indexing
changes the external state between them. -/
structure Env where
  videodbInit : Except String Unit
  getTranscript1 : Except String String
  indexSpokenWords : Except String Unit
  getTranscript2 : Except String String
  listSceneIndex : Except String (List SceneIndexEntry)
  getSceneIndexA : Except String (List Scene)
  indexScene : Except String (Option SceneIndexEntry)
  getSceneIndexB : Except String (List Scene)
  llmCall : String → Except String LLMResponse
  parseJson : String → Except String JsonObj

/-- Embedding of HookTemplateAgent._get_transcript: try the direct fetch;
on any exception emit the indexing action, trigger spoken-word indexing
and retry the fetch once, propagating any failure of the indexing call or
of the retried fetch. -/
def get_transcript (env : Env) : Except String String × List SinkEvent :=
  let log0 : List SinkEvent :=
    [.action "Processing video transcript...", .pushUpdate]
  match env.getTranscript1 with
  | .ok t => (.ok t, log0)
  | .error _ =>
    let log1 := log0 ++ [.action "Indexing video speech...", .pushUpdate]
    match env.indexSpokenWords with
    | .error e => (.error e, log1)
    | .ok _ => (env.getTranscript2, log1)

/-- Embedding of HookTemplateAgent._get_scenes.  The list_scene_index call
and the get_scene_index call of the listing branch are outside the
try/except, so their exceptions propagate; only the creation branch
(index_scene and the subsequent get_scene_index) is wrapped in try/except
and degrades to None.  A falsy index_scene result also degrades to None. -/
def get_scenes (env : Env) : Except String (Option (List Scene)) × List SinkEvent :=
  let log0 : List SinkEvent := [.action "Analyzing video scenes...", .pushUpdate]
  match env.listSceneIndex with
  | .error e => (.error e, log0)
  | .ok scene_list =>
    if scene_list.isEmpty then
      let log1 := log0 ++
        [.action "Scene index not found. Creating scene index...", .pushUpdate]
      match env.indexScene with
      | .error _ => (.ok none, log1)
      | .ok none => (.ok none, log1)
      | .ok (some _) =>
        match env.getSceneIndexB with
        | .error _ => (.ok none, log1)
        | .ok scenes => (.ok (some scenes), log1)
    else
      match env.getSceneIndexA with
      | .error e => (.error e, log0)
      | .ok scenes => (.ok (some scenes), log0)

/-- Hex digit as used by json.dumps (lowercase). -/
def hexDigit (n : Nat) : Char :=
  if n < 10 then Char.ofNat (48 + n) else Char.ofNat (87 + n)

/-- Four-digit hexadecimal rendering of a code unit, as in a JSON \u escape. -/
def hex4 (n : Nat) : String :=
  String.mk [hexDigit (n / 4096 % 16), hexDigit (n / 256 % 16),
             hexDigit (n / 16 % 16), hexDigit (n % 16)]

/-- Escaping of one character by json.dumps with its default
ensure_ascii=True: named escapes for the common control characters, \u
escapes for other control characters and for non-ASCII characters, with
surrogate pairs for characters beyond the basic multilingual plane. -/
def jsonEscapeChar (c : Char) : String :=
  if c = '\x22' then "\\\x22"
  else if c = '\\' then "\\\\"
  else if c = '\n' then "\\n"
  else if c = '\t' then "\\t"
  else if c = '\r' then "\\r"
  else if c = '\x08' then "\\b"
  else if c = '\x0c' then "\\f"
  else if c.toNat < 32 ∨ c.toNat > 126 then
    if c.toNat < 65536 then "\\u" ++ hex4 c.toNat
    else
      let n := c.toNat - 65536
      "\\u" ++ hex4 (55296 + n / 1024) ++ "\\u" ++ hex4 (56320 + n % 1024)
  else String.singleton c

/-- json.dumps of a single string: double-quoted, characters escaped. -/
def jsonDumpsString (s : String) : String :=
  "\x22" ++ String.join (s.toList.map jsonEscapeChar) ++ "\x22"

/-- json.dumps of a list of strings with the default separators: brackets
around the comma-space-separated dumps of the elements. -/
def jsonDumpsStrList (l : List String) : String :=
  "[" ++ String.intercalate ", " (l.map jsonDumpsString) ++ "]"

/-- The transcript slot of the LLM prompt:
transcript[:1000] if transcript else the placeholder (Python string
truthiness: the empty string selects the placeholder). -/
def transcriptSection (transcript : String) : String :=
  if transcript.isEmpty then "No transcript available" else transcript.take 1000

/-- Truthiness of the scenes value bound in run: None and the empty list
are falsy. -/
def scenesTruthy : Option (List Scene) → Bool
  | none => false
  | some l => !l.isEmpty

/-- The scenes slot of the LLM prompt:
json.dumps([scene[description] for scene in scenes[:5]]) if scenes else
the placeholder. -/
def scenesSection (scenes : Option (List Scene)) : String :=
  match scenes with
  | none => "No scenes available"
  | some l =>
    if l.isEmpty then "No scenes available"
    else jsonDumpsStrList ((l.take 5).map Scene.description)

/-- Literal text of the LLM prompt f-string before the user prompt slot. -/
def promptPart1 : String :=
  "\n            You are an expert video editor. Create an engaging hook template by analyzing this content carefully.\n            Focus on capturing specific quotes and insights that will grab attention.\n\n            User\x27s Intent: "

/-- Literal text of the LLM prompt f-string between the user prompt slot
and the transcript slot. -/
def promptPart2 : String :=
  "\n            \n            Content Analysis:\n            1. Find the most attention-grabbing quote or insight from the first minute\n            2. Identify the core message or surprising statement\n            3. Note the exact visual setting and speaker dynamics\n            4. Match the actual energy and style of the conversation\n            \n            Content to Analyze:\n            Transcript: "

/-- Literal text of the LLM prompt f-string between the transcript slot
and the scenes slot. -/
def promptPart3 : String :=
  "\n            Scenes: "

/-- Literal text of the LLM prompt f-string after the scenes slot. -/
def promptPart4 : String :=
  "\n            \n            Create a JSON response with:\n            \x7b\n                \x22script\x22: \x22Hook script that uses an actual quote or insight from the video\x22,\n                \x22visuals\x22: [\n                    \x22IMPORTANT: Only describe scenes that are explicitly mentioned in the transcript or scene descriptions.\x22,\n                    \x22Do not invent or add scenes that aren\x27t in the source material.\x22,\n                    \x22Focus on the podcast studio setting and speaker interactions\x22\n                ],\n                \x22transitions\x22: \x22Simple, clean transitions that match the professional studio setting\x22,\n                \x22music\x22: \x22Subtle background music that won\x27t overshadow the conversation\x22,\n                \x22sound_effects\x22: \x22Minimal to none - only if absolutely necessary for the studio setting\x22,\n                \x22pacing\x22: \x22Match the natural rhythm of the actual conversation\x22\n            \x7d\n\n            IMPORTANT GUIDELINES:\n            1. Only use visual elements that are explicitly present in the video\n            2. Avoid imagined or additional scenes not in the source material\n            3. Keep the focus on the actual studio conversation\n            4. Minimize unnecessary sound effects\n            5. Maintain the authentic podcast atmosphere\n\n            The hook script should incorporate real quotes or insights from the video to make it authentic and engaging.\n            "

/-- The assembled LLM prompt of run: the f-string is the concatenation of
its literal segments with the three interpolated slots. -/
def buildPrompt (prompt transcript : String) (scenes : Option (List Scene)) : String :=
  promptPart1 ++ prompt ++ promptPart2 ++ transcriptSection transcript ++
    promptPart3 ++ scenesSection scenes ++ promptPart4

/-- Field access template_data[k] on the parsed JSON object: a missing key
raises KeyError (its textual description carries the key). -/
def getField (o : JsonObj) (k : String) : Except String JField :=
  match o.lookup k with
  | some f => .ok f
  | none => .error ("KeyError: " ++ k)

/-- Python str() of a field value as interpolated by the template f-string:
a string interpolates as itself, a list as its repr (single-quoted
elements, comma-space separated, in brackets). -/
def pyStr : JField → String
  | .s v => v
  | .l vs => "[" ++ String.intercalate ", " (vs.map (fun v => "\x27" ++ v ++ "\x27")) ++ "]"

/-- The per-visual lines of the template: one dash-prefixed line per
element of the visuals list; a string field iterates as its characters,
as Python iteration over a string does. -/
def visualLines : JField → List String
  | .l vs => vs.map (fun v => "- " ++ v)
  | .s v => v.toList.map (fun c => "- " ++ String.singleton c)

/-- The inner template layout of spec section 6, without the surrounding
whitespace the f-string adds. -/
def specLayout (script : String) (vlines : List String)
    (transitions music sound_effects pacing : String) : String :=
  "Hook Script:\n\x22" ++ script ++ "\x22\n\nVisual Elements:\n" ++
    String.intercalate "\n" vlines ++ "\n\nTransitions:\n" ++ transitions ++
    "\n\nAudio:\n- Music: " ++ music ++ "\n- Sound Effects: " ++ sound_effects ++
    "\n\nPacing:\n" ++ pacing

/-- The template f-string of run applied to the parsed JSON object: the six
fields are read in the textual order of the f-string, a missing field
raising KeyError; the f-string opens with a newline and closes with a
newline followed by twelve spaces of source indentation. -/
def renderTemplate (o : JsonObj) : Except String String :=
  match getField o "script" with
  | .error e => .error e
  | .ok script =>
    match getField o "visuals" with
    | .error e => .error e
    | .ok visuals =>
      match getField o "transitions" with
      | .error e => .error e
      | .ok transitions =>
        match getField o "music" with
        | .error e => .error e
        | .ok music =>
          match getField o "sound_effects" with
          | .error e => .error e
          | .ok sound_effects =>
            match getField o "pacing" with
            | .error e => .error e
            | .ok pacing =>
              .ok ("\n" ++ specLayout (pyStr script) (visualLines visuals)
                    (pyStr transitions) (pyStr music) (pyStr sound_effects)
                    (pyStr pacing) ++ "\n            ")

/-- The agent_name set in the constructor; self.name returns it. -/
def agent_name : String := "hook_template"

/-- The TextContent constructed at the top of run (text defaults to
empty). -/
def initialContent : TextContent :=
  { agent_name := agent_name, status := .progress,
    status_message := "Analyzing video content...", text := "" }

/-- The except-handler mutation of the content object in run: only the
status and status_message fields are assigned before publishing. -/
def handleError (e : String) (tc : TextContent) : TextContent :=
  { tc with status := .error,
            status_message := "Error generating hook template: " ++ e }

/-- The success-path mutation of the content object in run: the rendered
template is written to text, the status set to success with its
status message, before publishing. -/
def succContentOf (template : String) : TextContent :=
  { initialContent with text := template, status := .success,
                        status_message := "Hook template generated successfully" }

/-- Result of one invocation of run: the returned AgentResponse, the
events sent to the session sink, and the prompt passed to the LLM call
(none when the invocation failed before reaching the LLM call). -/
structure RunResult where
  response : AgentResponse
  log : List SinkEvent
  llmPrompt : Option String
deriving DecidableEq

/-- The error path of run: the ERROR response (data left at its default)
and the publish of the error-mutated content object. -/
def mkError (e : String) (log : List SinkEvent) (lp : Option String) : RunResult :=
  { response := { status := .ERROR, message := "Agent failed with error: " ++ e },
    log := log ++ [.publish (handleError e initialContent)],
    llmPrompt := lp }

/-- Embedding of HookTemplateAgent.run: create and push the progress
content, construct the VideoDB tool, acquire transcript and scenes, build
the LLM prompt, call the LLM, raise on a falsy LLM status, parse the
reply, render the template, publish success; any exception of the body is
caught by the single top-level handler, which publishes the
error-mutated content (the content object always exists by the first
possible raise point) and returns the ERROR response. -/
def run (env : Env) (prompt : String) : RunResult :=
  let log0 : List SinkEvent := [.pushUpdate]
  match env.videodbInit with
  | .error e => mkError e log0 none
  | .ok _ =>
    match get_transcript env with
    | (.error e, tlog) => mkError e (log0 ++ tlog) none
    | (.ok transcript, tlog) =>
      match get_scenes env with
      | (.error e, slog) => mkError e (log0 ++ tlog ++ slog) none
      | (.ok scenes, slog) =>
        let llm_prompt := buildPrompt prompt transcript scenes
        let log1 := log0 ++ tlog ++ slog ++
          [.action "Generating hook template...", .pushUpdate]
        match env.llmCall llm_prompt with
        | .error e => mkError e log1 (some llm_prompt)
        | .ok resp =>
          if resp.status then
            match env.parseJson resp.content with
            | .error e => mkError e log1 (some llm_prompt)
            | .ok obj =>
              match renderTemplate obj with
              | .error e => mkError e log1 (some llm_prompt)
              | .ok template =>
                let okResponse : AgentResponse :=
                  { status := .SUCCESS,
                    message := "Agent " ++ agent_name ++ " completed successfully.",
                    data := [("template", template)] }
                { response := okResponse,
                  log := log1 ++ [.publish (succContentOf template)],
                  llmPrompt := some llm_prompt }
          else
            mkError "Failed to generate hook template" log1 (some llm_prompt)

end HookTemplate

namespace Spielberg

/-- The AgentResult.SUCCESS constant of the spielberg base module. -/
def AgentResult.SUCCESS : String := "success"

/-- The AgentResult.ERROR constant of the spielberg base module. -/
def AgentResult.ERROR : String := "error"

/-- The spielberg AgentResponse pydantic model: result defaults to
success, message to the empty string, data to the empty mapping. -/
structure AgentResponse where
  result : String := AgentResult.SUCCESS
  message : String := ""
  data : List (String × String) := []
deriving DecidableEq

/-- Embedding of BaseAgent.safe_call: forward to the wrapped call and
return its result unchanged; on any exception return an AgentResponse
with the error result and the exception text as message.  The wrapped
abstract call is a parameter, its argument list abstracted by a type. -/
def safe_call {α : Type} (call : α → Except String AgentResponse) (args : α) :
    AgentResponse :=
  match call args with
  | .ok r => r
  | .error e => { result := AgentResult.ERROR, message := e }

end Spielberg

namespace HookTemplate

/-- Test of an event for being a publish. -/
def isPublish : SinkEvent → Bool
  | .publish _ => true
  | _ => false

/-- Holds when an event list carries no publish, i.e. consists of
progress-side traffic only (action appends and push_update flushes). -/
def noPublish (l : List SinkEvent) : Bool :=
  l.all (fun ev => !isPublish ev)

/-- A parsed LLM reply with all six fields present, used as a concrete
input. -/
def okObj : JsonObj :=
  [("script", .s "S"), ("visuals", .l ["v1", "v2"]), ("transitions", .s "T"),
   ("music", .s "M"), ("sound_effects", .s "X"), ("pacing", .s "P")]

/-- The parsed reply okObj extended with an extra, unread field: the six
fields the renderer reads look up to the same values as in okObj. -/
def okObj2 : JsonObj := okObj ++ [("extra", .s "E")]

/-- The template text run produces from okObj. -/
def tplOK : String :=
  "\nHook Script:\n\x22S\x22\n\nVisual Elements:\n- v1\n- v2\n\nTransitions:\nT\n\nAudio:\n- Music: M\n- Sound Effects: X\n\nPacing:\nP\n            "

/-- Concrete environment of a fully successful invocation: transcript on
the first fetch, one existing scene index, LLM and parse succeed. -/
def envOK : Env :=
  { videodbInit := .ok (), getTranscript1 := .ok "hello transcript",
    indexSpokenWords := .ok (), getTranscript2 := .error "unused",
    listSceneIndex := .ok [⟨"sid"⟩], getSceneIndexA := .ok [⟨"desc one"⟩],
    indexScene := .ok none, getSceneIndexB := .error "unused",
    llmCall := fun _ => .ok ⟨true, "reply"⟩, parseJson := fun _ => .ok okObj }

/-- Concrete environment in which scene listing raises while everything
else would succeed: transcript is fetched, but the exception of
list_scene_index propagates out of the scene sub-procedure. -/
def envListRaises : Env :=
  { envOK with listSceneIndex := .error "connection reset" }

/-- Concrete environment of a tolerated scene failure: listing returns an
empty result and scene-index creation raises; transcript, LLM and parse
succeed. -/
def envTol : Env :=
  { envOK with listSceneIndex := .ok [], indexScene := .error "quota exceeded" }

/-- Concrete environment in which both transcript fetches raise while
spoken-word indexing succeeds. -/
def envNoTranscript : Env :=
  { envOK with getTranscript1 := .error "no transcript yet",
               getTranscript2 := .error "still no transcript" }

/-- Concrete environment in which the LLM reply carries a non-success
status. -/
def envLLMFail : Env :=
  { envOK with llmCall := fun _ => .ok ⟨false, "irrelevant"⟩ }

end HookTemplate

namespace Spielberg

/-- A concrete wrapped call for exercising safe_call: succeeds on true,
raises on false. -/
def call0 : Bool → Except String AgentResponse :=
  fun b => if b then .ok { result := "success", message := "ok" } else .error "boom"

end Spielberg

namespace HookTemplate

/-- Splitting noPublish over list concatenation. -/
theorem noPublish_append (l1 l2 : List SinkEvent) :
    noPublish (l1 ++ l2) = (noPublish l1 && noPublish l2) := by
  simp [noPublish, List.all_append]

/-- The transcript sub-procedure sends only progress traffic to the sink,
never a publish. -/
theorem get_transcript_noPublish (env : Env) : noPublish (get_transcript env).2 = true := by
  unfold get_transcript
  cases env.getTranscript1 with
  | error e =>
    cases env.indexSpokenWords with
    | error e2 => rfl
    | ok u => rfl
  | ok t => rfl

/-- The scene sub-procedure sends only progress traffic to the sink,
never a publish. -/
theorem get_scenes_noPublish (env : Env) : noPublish (get_scenes env).2 = true := by
  unfold get_scenes
  cases env.listSceneIndex with
  | error e => rfl
  | ok sl =>
    by_cases h : sl.isEmpty
    · simp only [h, if_true]
      cases env.indexScene with
      | error e => rfl
      | ok o =>
        cases o with
        | none => rfl
        | some s =>
          cases env.getSceneIndexB with
          | error e => rfl
          | ok l => rfl
    · simp only [h, if_false]
      cases env.getSceneIndexA with
      | error e => rfl
      | ok l => rfl

/-- A falsy scenes value selects the placeholder in the prompt. -/
theorem scenesSection_not_truthy (sc : Option (List Scene)) (h : scenesTruthy sc = false) :
    scenesSection sc = "No scenes available" := by
  cases sc with
  | none => rfl
  | some l =>
    simp [scenesTruthy] at h
    simp [scenesSection, h]

/-- Characterisation of the scenes slot by truthiness of the scenes value. -/
theorem scenesSection_eq (sc : Option (List Scene)) :
    scenesSection sc =
      if scenesTruthy sc then
        jsonDumpsStrList (((sc.getD []).take 5).map Scene.description)
      else "No scenes available" := by
  cases sc with
  | none => rfl
  | some l =>
    by_cases h : l.isEmpty <;> simp [scenesSection, scenesTruthy, h]

/-- Every template the renderer produces has the fixed layout wrapped in
the leading newline and the trailing newline plus twelve spaces. -/
theorem renderTemplate_shape (o : JsonObj) (tpl : String)
    (h : renderTemplate o = .ok tpl) :
    ∃ s vl t m x pc,
      tpl = "\n" ++ specLayout s vl t m x pc ++ "\n            " := by
  cases h1 : getField o "script" with
  | error e => simp [renderTemplate, h1] at h
  | ok s =>
    cases h2 : getField o "visuals" with
    | error e => simp [renderTemplate, h1, h2] at h
    | ok v =>
      cases h3 : getField o "transitions" with
      | error e => simp [renderTemplate, h1, h2, h3] at h
      | ok tr =>
        cases h4 : getField o "music" with
        | error e => simp [renderTemplate, h1, h2, h3, h4] at h
        | ok m =>
          cases h5 : getField o "sound_effects" with
          | error e => simp [renderTemplate, h1, h2, h3, h4, h5] at h
          | ok x =>
            cases h6 : getField o "pacing" with
            | error e => simp [renderTemplate, h1, h2, h3, h4, h5, h6] at h
            | ok pc =>
              refine ⟨pyStr s, visualLines v, pyStr tr, pyStr m, pyStr x, pyStr pc, ?_⟩
              simp [renderTemplate, h1, h2, h3, h4, h5, h6] at h
              exact h.symm

/-- C1 counterexample: in this environment transcript acquisition succeeds
and scene acquisition fails by an exception of scene listing, yet the
invocation returns ERROR, refuting the claim that any combination of
scene-listing and scene-creation failures is tolerated. -/
theorem c1_counterexample :
    (get_transcript envListRaises).1 = .ok "hello transcript" ∧
    envListRaises.listSceneIndex = .error "connection reset" ∧
    (run envListRaises "make it catchy").response.status = .ERROR :=
  ⟨rfl, rfl, rfl⟩

/-- C1 (amended): scene-acquisition failures that the sub-procedure itself
absorbs — creation failing by exception or by an empty result after an
empty listing, or a fetched index with no scenes — are tolerated: when
transcript acquisition succeeds and the remaining pipeline succeeds, the
invocation returns SUCCESS and the prompt sent to the LLM contains the
placeholder for the scene-description slot.  (An exception raised by
scene listing itself, or by fetching an existing index, instead
propagates and fails the invocation, per the counterexample.) -/
theorem c1_scene_failures_tolerated_amended (env : Env) (p t : String)
    (sc : Option (List Scene)) (resp : LLMResponse) (o : JsonObj) (tpl : String)
    (hI : env.videodbInit = .ok ())
    (hT : (get_transcript env).1 = .ok t)
    (hS : (get_scenes env).1 = .ok sc)
    (hsc : scenesTruthy sc = false)
    (hL : env.llmCall (buildPrompt p t sc) = .ok resp)
    (hst : resp.status = true)
    (hP : env.parseJson resp.content = .ok o)
    (hR : renderTemplate o = .ok tpl) :
    (run env p).response.status = .SUCCESS ∧
    (run env p).llmPrompt = some (buildPrompt p t sc) ∧
    ∃ a b, buildPrompt p t sc = a ++ "No scenes available" ++ b := by
  have hsec : scenesSection sc = "No scenes available" := scenesSection_not_truthy sc hsc
  rcases hgt : get_transcript env with ⟨tr, tlog⟩
  rcases hgs : get_scenes env with ⟨sr, slog⟩
  rw [hgt] at hT
  rw [hgs] at hS
  simp at hT hS
  subst hT hS
  refine ⟨?_, ?_, ⟨promptPart1 ++ p ++ promptPart2 ++ transcriptSection t ++ promptPart3,
    promptPart4, ?_⟩⟩
  · simp [run, hI, hgt, hgs, hL, hst, hP, hR]
  · simp [run, hI, hgt, hgs, hL, hst, hP, hR]
  · simp [buildPrompt, hsec, String.append_assoc]

/-- C1 witness: concrete tolerated scene failure (empty listing, creation
raising) with a successful remaining pipeline. -/
theorem c1_witness :
    (run envTol "p").response.status = .SUCCESS ∧
    (run envTol "p").llmPrompt = some (buildPrompt "p" "hello transcript" none) ∧
    ∃ a b, buildPrompt "p" "hello transcript" none = a ++ "No scenes available" ++ b :=
  c1_scene_failures_tolerated_amended envTol "p" "hello transcript" none
    ⟨true, "reply"⟩ okObj tplOK rfl rfl rfl rfl rfl rfl rfl rfl

/-- C2: when the initial transcript fetch raises, the sub-procedure emits
the indexing-progress action, triggers spoken-word indexing and retries
the fetch exactly once; the failure of the retried fetch propagates (the
resulting error is the retried fetch's error), run returns ERROR carrying
that error text, and no publish with success status is ever emitted. -/
theorem c2_transcript_single_shot_fallback (env : Env) (p e1 e2 : String)
    (hI : env.videodbInit = .ok ())
    (h1 : env.getTranscript1 = .error e1)
    (hIdx : env.indexSpokenWords = .ok ())
    (h2 : env.getTranscript2 = .error e2) :
    get_transcript env = (.error e2,
      [SinkEvent.action "Processing video transcript...", SinkEvent.pushUpdate,
       SinkEvent.action "Indexing video speech...", SinkEvent.pushUpdate]) ∧
    (run env p).response.status = .ERROR ∧
    (run env p).response.message = "Agent failed with error: " ++ e2 ∧
    SinkEvent.action "Indexing video speech..." ∈ (run env p).log ∧
    ∀ tc, SinkEvent.publish tc ∈ (run env p).log → tc.status = .error := by
  have hg : get_transcript env = (.error e2,
      [SinkEvent.action "Processing video transcript...", SinkEvent.pushUpdate,
       SinkEvent.action "Indexing video speech...", SinkEvent.pushUpdate]) := by
    simp [get_transcript, h1, hIdx, h2]
  refine ⟨hg, ?_, ?_, ?_, ?_⟩
  · simp [run, mkError, hI, hg]
  · simp [run, mkError, hI, hg]
  · simp [run, mkError, hI, hg]
  · intro tc htc
    simp [run, mkError, hI, hg] at htc
    subst htc
    rfl

/-- C2 witness: concrete environment in which both fetches fail and
indexing succeeds. -/
theorem c2_witness :
    get_transcript envNoTranscript = (.error "still no transcript",
      [SinkEvent.action "Processing video transcript...", SinkEvent.pushUpdate,
       SinkEvent.action "Indexing video speech...", SinkEvent.pushUpdate]) ∧
    (run envNoTranscript "style").response.status = .ERROR ∧
    (run envNoTranscript "style").response.message =
      "Agent failed with error: " ++ "still no transcript" ∧
    SinkEvent.action "Indexing video speech..." ∈ (run envNoTranscript "style").log :=
  ⟨(c2_transcript_single_shot_fallback envNoTranscript "style"
      "no transcript yet" "still no transcript" rfl rfl rfl rfl).1,
   (c2_transcript_single_shot_fallback envNoTranscript "style"
      "no transcript yet" "still no transcript" rfl rfl rfl rfl).2.1,
   (c2_transcript_single_shot_fallback envNoTranscript "style"
      "no transcript yet" "still no transcript" rfl rfl rfl rfl).2.2.1,
   (c2_transcript_single_shot_fallback envNoTranscript "style"
      "no transcript yet" "still no transcript" rfl rfl rfl rfl).2.2.2.1⟩

/-- C3: every invocation of run returns a well-formed response without
propagating a fault — run is a total function into RunResult — and every
failing invocation returns ERROR with the failure text in the message
and publishes the error-mutated content object to the sink (the
progress-content object exists before every raise point of the body, so
the error notification is emitted on every failure path). -/
theorem c3_single_top_level_boundary (env : Env) (p : String) :
    (run env p).response.status = .SUCCESS ∨
    ∃ e, (run env p).response.status = .ERROR ∧
      (run env p).response.message = "Agent failed with error: " ++ e ∧
      SinkEvent.publish (handleError e initialContent) ∈ (run env p).log := by
  rcases hgt : get_transcript env with ⟨tr, tlog⟩
  rcases hgs : get_scenes env with ⟨sr, slog⟩
  cases hI : env.videodbInit with
  | error e => refine Or.inr ⟨e, ?_, ?_, ?_⟩ <;> simp [run, mkError, hI]
  | ok u =>
    cases tr with
    | error e => refine Or.inr ⟨e, ?_, ?_, ?_⟩ <;> simp [run, mkError, hI, hgt]
    | ok t =>
      cases sr with
      | error e => refine Or.inr ⟨e, ?_, ?_, ?_⟩ <;> simp [run, mkError, hI, hgt, hgs]
      | ok sc =>
        cases hL : env.llmCall (buildPrompt p t sc) with
        | error e =>
          refine Or.inr ⟨e, ?_, ?_, ?_⟩ <;> simp [run, mkError, hI, hgt, hgs, hL]
        | ok resp =>
          cases hst : resp.status with
          | false =>
            refine Or.inr ⟨"Failed to generate hook template", ?_, ?_, ?_⟩ <;>
              simp [run, mkError, hI, hgt, hgs, hL, hst]
          | true =>
            cases hP : env.parseJson resp.content with
            | error e =>
              refine Or.inr ⟨e, ?_, ?_, ?_⟩ <;> simp [run, mkError, hI, hgt, hgs, hL, hst, hP]
            | ok obj =>
              cases hR : renderTemplate obj with
              | error e =>
                refine Or.inr ⟨e, ?_, ?_, ?_⟩ <;>
                  simp [run, mkError, hI, hgt, hgs, hL, hst, hP, hR]
              | ok tpl => exact Or.inl (by simp [run, hI, hgt, hgs, hL, hst, hP, hR])

/-- C4: for every user prompt, transcript and scenes value, the assembled
LLM prompt embeds the user prompt, the first 1000 characters of the
transcript (or the transcript placeholder when it is empty), and the
JSON array of the descriptions of the first 5 scenes (or the scenes
placeholder when the scenes value is falsy). -/
theorem c4_prompt_embeds_slots (p t : String) (sc : Option (List Scene)) :
    (∃ a b, buildPrompt p t sc = a ++ p ++ b) ∧
    (∃ a b, buildPrompt p t sc =
      a ++ (if t.isEmpty then "No transcript available" else t.take 1000) ++ b) ∧
    (∃ a b, buildPrompt p t sc =
      a ++ (if scenesTruthy sc then
              jsonDumpsStrList (((sc.getD []).take 5).map Scene.description)
            else "No scenes available") ++ b) := by
  refine ⟨⟨promptPart1,
      promptPart2 ++ transcriptSection t ++ promptPart3 ++ scenesSection sc ++ promptPart4, ?_⟩,
    ⟨promptPart1 ++ p ++ promptPart2,
      promptPart3 ++ scenesSection sc ++ promptPart4, ?_⟩,
    ⟨promptPart1 ++ p ++ promptPart2 ++ transcriptSection t ++ promptPart3,
      promptPart4, ?_⟩⟩
  · simp [buildPrompt, String.append_assoc]
  · simp [buildPrompt, transcriptSection, String.append_assoc]
  · simp [buildPrompt, scenesSection_eq, String.append_assoc]

/-- C5 counterexample: a successful invocation whose returned template is
not the bare layout of spec section 6 — the code wraps the layout in a
leading newline and a trailing newline plus twelve spaces, refuting the
claim that no characters precede or follow the layout. -/
theorem c5_counterexample :
    (run envOK "style").response.status = .SUCCESS ∧
    ((run envOK "style").response.data).lookup "template" = some tplOK ∧
    tplOK ≠ specLayout "S" ["- v1", "- v2"] "T" "M" "X" "P" := by
  refine ⟨rfl, rfl, ?_⟩
  decide

/-- C5 (amended): on every successful invocation the returned template is
exactly the literal layout of spec section 6 preceded by one newline and
followed by one newline and twelve spaces (the f-string's surrounding
whitespace), for some values of the six fields. -/
theorem c5_template_layout_amended (env : Env) (p tpl : String)
    (hs : (run env p).response.status = .SUCCESS)
    (hd : ((run env p).response.data).lookup "template" = some tpl) :
    ∃ script vlines transitions music sound_effects pacing,
      tpl = "\n" ++ specLayout script vlines transitions music sound_effects pacing ++
        "\n            " := by
  rcases hgt : get_transcript env with ⟨tr, tlog⟩
  rcases hgs : get_scenes env with ⟨sr, slog⟩
  cases hI : env.videodbInit with
  | error e => simp [run, mkError, hI] at hs
  | ok u =>
    cases tr with
    | error e => simp [run, mkError, hI, hgt] at hs
    | ok t =>
      cases sr with
      | error e => simp [run, mkError, hI, hgt, hgs] at hs
      | ok sc =>
        cases hL : env.llmCall (buildPrompt p t sc) with
        | error e => simp [run, mkError, hI, hgt, hgs, hL] at hs
        | ok resp =>
          cases hst : resp.status with
          | false => simp [run, mkError, hI, hgt, hgs, hL, hst] at hs
          | true =>
            cases hP : env.parseJson resp.content with
            | error e => simp [run, mkError, hI, hgt, hgs, hL, hst, hP] at hs
            | ok obj =>
              cases hR : renderTemplate obj with
              | error e => simp [run, mkError, hI, hgt, hgs, hL, hst, hP, hR] at hs
              | ok tplR =>
                have heq : tpl = tplR := by
                  simp [run, hI, hgt, hgs, hL, hst, hP, hR] at hd
                  exact hd.symm
                subst heq
                exact renderTemplate_shape obj tpl hR

/-- C5 witness: the template of the concrete successful invocation has the
amended shape. -/
theorem c5_witness :
    ∃ script vlines transitions music sound_effects pacing,
      tplOK = "\n" ++ specLayout script vlines transitions music sound_effects pacing ++
        "\n            " :=
  c5_template_layout_amended envOK "style" tplOK rfl rfl

/-- C6: every invocation emits exactly one terminal message: the sink log
is a sequence of publish-free progress traffic followed by a single
publish, whose status is success or error. -/
theorem c6_exactly_one_terminal (env : Env) (p : String) :
    ∃ l tc, (run env p).log = l ++ [SinkEvent.publish tc] ∧ noPublish l = true ∧
      (tc.status = .success ∨ tc.status = .error) := by
  have hT2 := get_transcript_noPublish env
  have hS2 := get_scenes_noPublish env
  rcases hgt : get_transcript env with ⟨tr, tlog⟩
  rcases hgs : get_scenes env with ⟨sr, slog⟩
  rw [hgt] at hT2
  rw [hgs] at hS2
  cases hI : env.videodbInit with
  | error e =>
    refine ⟨[SinkEvent.pushUpdate], handleError e initialContent, ?_, ?_, Or.inr rfl⟩
    · simp [run, mkError, hI]
    · decide
  | ok u =>
    cases tr with
    | error e =>
      refine ⟨[SinkEvent.pushUpdate] ++ tlog, handleError e initialContent, ?_, ?_, Or.inr rfl⟩
      · simp [run, mkError, hI, hgt]
      · simp only [noPublish_append, hT2]
        decide
    | ok t =>
      cases sr with
      | error e =>
        refine ⟨[SinkEvent.pushUpdate] ++ tlog ++ slog, handleError e initialContent, ?_, ?_,
          Or.inr rfl⟩
        · simp [run, mkError, hI, hgt, hgs]
        · simp only [noPublish_append, hT2, hS2]
          decide
      | ok sc =>
        cases hL : env.llmCall (buildPrompt p t sc) with
        | error e =>
          refine ⟨[SinkEvent.pushUpdate] ++ tlog ++ slog ++
            [SinkEvent.action "Generating hook template...", SinkEvent.pushUpdate],
            handleError e initialContent, ?_, ?_, Or.inr rfl⟩
          · simp [run, mkError, hI, hgt, hgs, hL]
          · simp only [noPublish_append, hT2, hS2]
            decide
        | ok resp =>
          cases hst : resp.status with
          | false =>
            refine ⟨[SinkEvent.pushUpdate] ++ tlog ++ slog ++
              [SinkEvent.action "Generating hook template...", SinkEvent.pushUpdate],
              handleError "Failed to generate hook template" initialContent, ?_, ?_,
              Or.inr rfl⟩
            · simp [run, mkError, hI, hgt, hgs, hL, hst]
            · simp only [noPublish_append, hT2, hS2]
              decide
          | true =>
            cases hP : env.parseJson resp.content with
            | error e =>
              refine ⟨[SinkEvent.pushUpdate] ++ tlog ++ slog ++
                [SinkEvent.action "Generating hook template...", SinkEvent.pushUpdate],
                handleError e initialContent, ?_, ?_, Or.inr rfl⟩
              · simp [run, mkError, hI, hgt, hgs, hL, hst, hP]
              · simp only [noPublish_append, hT2, hS2]
                decide
            | ok obj =>
              cases hR : renderTemplate obj with
              | error e =>
                refine ⟨[SinkEvent.pushUpdate] ++ tlog ++ slog ++
                  [SinkEvent.action "Generating hook template...", SinkEvent.pushUpdate],
                  handleError e initialContent, ?_, ?_, Or.inr rfl⟩
                · simp [run, mkError, hI, hgt, hgs, hL, hst, hP, hR]
                · simp only [noPublish_append, hT2, hS2]
                  decide
              | ok tpl =>
                refine ⟨[SinkEvent.pushUpdate] ++ tlog ++ slog ++
                  [SinkEvent.action "Generating hook template...", SinkEvent.pushUpdate],
                  succContentOf tpl, ?_, ?_, Or.inl rfl⟩
                · simp [run, hI, hgt, hgs, hL, hst, hP, hR]
                · simp only [noPublish_append, hT2, hS2]
                  decide

/-- C7: a non-success LLM status makes run return ERROR with the
template-generation-failure message, and the response data carries no
template key. -/
theorem c7_llm_nonsuccess_error (env : Env) (p t : String) (sc : Option (List Scene))
    (resp : LLMResponse)
    (hI : env.videodbInit = .ok ())
    (hT : (get_transcript env).1 = .ok t)
    (hS : (get_scenes env).1 = .ok sc)
    (hL : env.llmCall (buildPrompt p t sc) = .ok resp)
    (hst : resp.status = false) :
    (run env p).response.status = .ERROR ∧
    (run env p).response.message =
      "Agent failed with error: Failed to generate hook template" ∧
    ((run env p).response.data).lookup "template" = none := by
  rcases hgt : get_transcript env with ⟨tr, tlog⟩
  rcases hgs : get_scenes env with ⟨sr, slog⟩
  rw [hgt] at hT
  rw [hgs] at hS
  simp at hT hS
  subst hT hS
  refine ⟨?_, ?_, ?_⟩ <;> simp [run, mkError, hI, hgt, hgs, hL, hst]

/-- C7 witness: concrete environment whose LLM reply has a falsy status. -/
theorem c7_witness :
    (run envLLMFail "style").response.status = .ERROR ∧
    (run envLLMFail "style").response.message =
      "Agent failed with error: Failed to generate hook template" ∧
    ((run envLLMFail "style").response.data).lookup "template" = none :=
  c7_llm_nonsuccess_error envLLMFail "style" "hello transcript" (some [⟨"desc one"⟩])
    ⟨false, "irrelevant"⟩ rfl rfl rfl rfl rfl

/-- C8: rendering is a pure function of the six looked-up fields — two
parsed objects agreeing on the six fields render identically — and
reapplying the renderer to the same parsed object yields the identical
result. -/
theorem c8_render_pure (o1 o2 : JsonObj)
    (hs : o1.lookup "script" = o2.lookup "script")
    (hv : o1.lookup "visuals" = o2.lookup "visuals")
    (ht : o1.lookup "transitions" = o2.lookup "transitions")
    (hm : o1.lookup "music" = o2.lookup "music")
    (hx : o1.lookup "sound_effects" = o2.lookup "sound_effects")
    (hp : o1.lookup "pacing" = o2.lookup "pacing") :
    renderTemplate o1 = renderTemplate o2 ∧
    ∀ o : JsonObj, renderTemplate o = renderTemplate o := by
  constructor
  · unfold renderTemplate getField
    rw [hs, hv, ht, hm, hx, hp]
  · intro o
    rfl

/-- C8 witness: okObj2 extends okObj with an unread extra field; the six
fields agree, so the renders coincide. -/
theorem c8_witness : renderTemplate okObj = renderTemplate okObj2 :=
  (c8_render_pure okObj okObj2 rfl rfl rfl rfl rfl rfl).1

/-- C10: the error handler of run leaves the content object's text (and
name) unchanged, assigning only the status and the status message; in
particular no partially built template is written on the error path. -/
theorem c10_error_handler_frame (e : String) (tc : TextContent) :
    (handleError e tc).text = tc.text ∧
    (handleError e tc).agent_name = tc.agent_name ∧
    (handleError e tc).status = MsgStatus.error ∧
    (handleError e tc).status_message = "Error generating hook template: " ++ e :=
  ⟨rfl, rfl, rfl, rfl⟩

end HookTemplate

namespace Spielberg

/-- C9: safe_call returns the wrapped call's response unchanged when it
does not raise, and on any exception returns an AgentResponse with the
error result and the exception text as message, never propagating. -/
theorem c9_safe_call_contract {α : Type} (call : α → Except String AgentResponse)
    (args : α) :
    (∀ r, call args = .ok r → safe_call call args = r) ∧
    (∀ e, call args = .error e →
      safe_call call args = { result := AgentResult.ERROR, message := e, data := [] }) := by
  constructor
  · intro r h
    simp [safe_call, h]
  · intro e h
    simp [safe_call, h]

/-- C9 witness: the concrete wrapped call forwarded on success and
converted to an error response on exception. -/
theorem c9_witness :
    safe_call call0 true = { result := "success", message := "ok", data := [] } ∧
    safe_call call0 false = { result := "error", message := "boom", data := [] } :=
  ⟨(c9_safe_call_contract call0 true).1 { result := "success", message := "ok", data := [] } rfl,
   (c9_safe_call_contract call0 false).2 "boom" rfl⟩

end Spielberg
